import Mathlib

/-!
Verification of the document index provider abstraction of the auto_rfp
repository: credential resolution (src/lib/env.ts), the provider factory
(src/lib/providers/provider-factory.ts), the LlamaCloud provider with its
retrying transport (LlamaCloudProvider in the index-provider route file) and
the Bedrock provider (BedrockProvider).

The embedding models JavaScript semantics explicitly: `Option String` for
possibly-undefined values, `jsOr` for the `a || b` idiom on strings (the empty
string is falsy), a small `Json` type for external payloads, and an explicit
error type mirroring the repository's error classes.
-/

namespace AutoRfp

/-- Minimal JSON value model for external response payloads. -/
inductive Json where
  | null
  | jbool (b : Bool)
  | jnum (n : Int)
  | jstr (s : String)
  | jarr (xs : List Json)
  | jobj (fields : List (String × Json))

/-- JavaScript object property access (first matching key, `undefined` if absent). -/
def Json.getField : Json → String → Option Json
  | .jobj fields, key => (fields.find? (fun kv => kv.fst == key)).map Prod.snd
  | _, _ => none

/-- JavaScript falsiness of a JSON value (drives the `payload || []` pattern). -/
def Json.falsy : Json → Bool
  | .null => true
  | .jbool b => !b
  | .jnum n => n == 0
  | .jstr s => s == ""
  | _ => false

/-- The `payload || []` coalescing applied before schema validation. -/
def Json.orEmptyArray (j : Json) : Json := if j.falsy then .jarr [] else j

/-- JavaScript `a || b` for a possibly-undefined string: the empty string is falsy. -/
def jsOr (a : Option String) (b : String) : String :=
  match a with
  | some s => if s == "" then b else s
  | none => b

/-- JavaScript `a || null` for a possibly-undefined string. -/
def jsOrNull (a : Option String) : Option String :=
  match a with
  | some s => if s == "" then none else some s
  | none => none

/-- JavaScript `a || null` for a possibly-undefined number (0 is falsy). -/
def jsOrNullInt (a : Option Int) : Option Int :=
  match a with
  | some n => if n == 0 then none else some n
  | none => none

/-- Supported provider types (src/lib/interfaces/document-index-provider.ts). -/
inductive ProviderType where
  | llamacloud
  | bedrock
deriving DecidableEq, Repr

/-- Provider-agnostic credentials (ProviderCredentials interface). `ctype`
embeds the `type` field (`type` is a Lean keyword). -/
structure ProviderCredentials where
  ctype : ProviderType
  llamaCloudApiKey : Option String := none
  awsAccessKeyId : Option String := none
  awsSecretAccessKey : Option String := none
  awsRegion : Option String := none
deriving DecidableEq, Repr

/-- Provider-agnostic project (IndexProject interface). -/
structure IndexProject where
  id : String
  name : String
  description : Option String
  createdAt : Option String
  updatedAt : Option String
deriving DecidableEq, Repr

/-- Provider-agnostic pipeline (IndexPipeline interface). -/
structure IndexPipeline where
  id : String
  name : String
  projectId : String
  description : Option String
  status : Option String
  createdAt : Option String
  updatedAt : Option String
deriving DecidableEq, Repr

/-- Provider-agnostic document (IndexDocument interface). `dtype` embeds the
`type` field. -/
structure IndexDocument where
  id : Option String
  name : String
  size : Option Int
  dtype : Option String
  pipelineId : Option String
  lastModified : Option String
  status : Option String
deriving DecidableEq, Repr

/-- The error values thrown by the embedded code: the repository's error
classes from src/lib/errors/api-errors.ts that these code paths use
(LlamaCloudConnectionError, ExternalServiceError, ValidationError,
ConfigurationError) plus `jsRuntimeError` for the untyped JavaScript
`new Error(...)`. -/
inductive JsError where
  | llamaCloudConnectionError (msg : String)
  | externalServiceError (msg : String) (service : String)
  | validationError (msg : String)
  | configurationError (msg : String)
  | jsRuntimeError (msg : String)
deriving DecidableEq, Repr

/-- The `.message` property of a thrown error. -/
def JsError.message : JsError → String
  | .llamaCloudConnectionError m => m
  | .externalServiceError m _ => m
  | .validationError m => m
  | .configurationError m => m
  | .jsRuntimeError m => m

/-- `error instanceof LlamaCloudConnectionError` — the repository class that
realises the spec's ConnectionError. -/
def JsError.isConnectionError : JsError → Bool
  | .llamaCloudConnectionError _ => true
  | _ => false

/-- `error instanceof ValidationError`. -/
def JsError.isValidationError : JsError → Bool
  | .validationError _ => true
  | _ => false

/-- `error instanceof ConfigurationError`. -/
def JsError.isConfigurationError : JsError → Bool
  | .configurationError _ => true
  | _ => false

/-- An HTTP response as seen by the provider: `ok`, `status`, parsed JSON body. -/
structure HttpResponse where
  ok : Bool
  status : Nat
  body : Json

/-- Outcome of one `fetch` attempt: a completed response (any status), or a
thrown transport-level failure (network error, or abort on timeout) with the
error's message. -/
inductive FetchOutcome where
  | ok (resp : HttpResponse)
  | err (msg : String)

/-- Result of a transport-using operation together with its observable I/O
trace: how many times the underlying `fetch` fired and which backoff delays
(in milliseconds) were awaited between attempts. -/
structure TransportResult (α : Type) where
  result : Except JsError α
  calls : Nat
  delaysMs : List Nat

/-- The message of the ExternalServiceError raised when all retry attempts are
exhausted (LlamaCloudProvider.makeRequest, final throw). -/
def exhaustMsg (retryAttempts : Nat) (lastErrorMsg : String) : String :=
  "LlamaCloud API request failed after " ++ toString retryAttempts ++
    " attempts: " ++ lastErrorMsg

/-- The retry loop of LlamaCloudProvider.makeRequest, from the attempt that
calls `fetchOutcome attempt`, with `fuel` retries remaining after it
(`fuel = retryAttempts - attempt` at every reachable call). A completed
response returns immediately; a thrown fetch failure either exhausts the
attempts (`fuel = 0`, i.e. `attempt === retryAttempts`: break, then throw
ExternalServiceError wrapping the last failure) or sleeps
`Math.pow(2, attempt) * 1000` milliseconds and retries. -/
def makeRequestGo (fetchOutcome : Nat → FetchOutcome) (retryAttempts : Nat) :
    Nat → Nat → TransportResult HttpResponse
  | attempt, 0 =>
    match fetchOutcome attempt with
    | .ok resp => ⟨.ok resp, 1, []⟩
    | .err msg =>
      ⟨.error (.externalServiceError (exhaustMsg retryAttempts msg) "LlamaCloud"), 1, []⟩
  | attempt, fuel + 1 =>
    match fetchOutcome attempt with
    | .ok resp => ⟨.ok resp, 1, []⟩
    | .err _ =>
      let rest := makeRequestGo fetchOutcome retryAttempts (attempt + 1) fuel
      ⟨rest.result, rest.calls + 1, (2 ^ attempt * 1000) :: rest.delaysMs⟩

/-- LlamaCloudProvider.makeRequest: up to `retryAttempts` total fetch attempts
starting at attempt 1. With `retryAttempts = 0` the loop body never runs and
the final throw fires with no recorded last error (`lastError?.message` is
`undefined`); the provider constructor's `config.retryAttempts || 3` default
makes 0 unreachable in the source. -/
def makeRequest (fetchOutcome : Nat → FetchOutcome) (retryAttempts : Nat) :
    TransportResult HttpResponse :=
  match retryAttempts with
  | 0 => ⟨.error (.externalServiceError (exhaustMsg 0 "undefined") "LlamaCloud"), 0, []⟩
  | n + 1 => makeRequestGo fetchOutcome (n + 1) 1 n

/-- `config.retryAttempts || 3` (provider constructors; 0 is falsy). -/
def configRetryAttempts (c : Option Nat) : Nat :=
  match c with
  | some n => if n = 0 then 3 else n
  | none => 3

/-! ## LlamaCloud wire schemas

The zod schemas live in src/lib/validators/llamacloud.ts, which is not among
the provided sources; only its test suite is. The records and parse functions
below are modelled from the spec's data model and from those tests: projects
require string `id` and `name`; pipelines additionally require `project_id`;
files require only `name`; the remaining fields are optional strings (numeric
`file_size` for files). zod's `.parse` throws a ZodError on mismatch, embedded
as returning `none`. -/

/-- Raw LlamaCloud project payload (LlamaCloudProject). -/
structure LlamaCloudProject where
  id : String
  name : String
  description : Option String
  created_at : Option String
  updated_at : Option String
deriving DecidableEq, Repr

/-- Raw LlamaCloud pipeline payload (LlamaCloudPipeline). -/
structure LlamaCloudPipeline where
  id : String
  name : String
  project_id : String
  description : Option String
  status : Option String
  created_at : Option String
  updated_at : Option String
deriving DecidableEq, Repr

/-- Raw LlamaCloud file payload (LlamaCloudFile), restricted to the fields the
provider's mapping reads. -/
structure LlamaCloudFile where
  id : Option String
  name : String
  file_size : Option Int
  file_type : Option String
  pipeline_id : Option String
  last_modified_at : Option String
  status : Option String
deriving DecidableEq, Repr

/-- A required string field (`z.string()` on an object key). -/
def reqStrField (j : Json) (key : String) : Option String :=
  match j.getField key with
  | some (.jstr s) => some s
  | _ => none

/-- An optional string field (`z.string().optional()`; absent is accepted,
a present non-string is rejected). -/
def optStrField (j : Json) (key : String) : Option (Option String) :=
  match j.getField key with
  | none => some none
  | some (.jstr s) => some (some s)
  | some _ => none

/-- An optional number field (`z.number().optional()`). -/
def optNumField (j : Json) (key : String) : Option (Option Int) :=
  match j.getField key with
  | none => some none
  | some (.jnum n) => some (some n)
  | some _ => none

/-- Modelled from the spec and the validator tests: LlamaCloudProjectSchema. -/
def parseLlamaCloudProject (j : Json) : Option LlamaCloudProject := do
  let id ← reqStrField j "id"
  let name ← reqStrField j "name"
  let description ← optStrField j "description"
  let created_at ← optStrField j "created_at"
  let updated_at ← optStrField j "updated_at"
  some { id, name, description, created_at, updated_at }

/-- Modelled from the spec and the validator tests: LlamaCloudPipelineSchema. -/
def parseLlamaCloudPipeline (j : Json) : Option LlamaCloudPipeline := do
  let id ← reqStrField j "id"
  let name ← reqStrField j "name"
  let project_id ← reqStrField j "project_id"
  let description ← optStrField j "description"
  let status ← optStrField j "status"
  let created_at ← optStrField j "created_at"
  let updated_at ← optStrField j "updated_at"
  some { id, name, project_id, description, status, created_at, updated_at }

/-- Modelled from the spec and the validator tests: LlamaCloudFileSchema. -/
def parseLlamaCloudFile (j : Json) : Option LlamaCloudFile := do
  let id ← optStrField j "id"
  let name ← reqStrField j "name"
  let file_size ← optNumField j "file_size"
  let file_type ← optStrField j "file_type"
  let pipeline_id ← optStrField j "pipeline_id"
  let last_modified_at ← optStrField j "last_modified_at"
  let status ← optStrField j "status"
  some { id, name, file_size, file_type, pipeline_id, last_modified_at, status }

/-- `z.array(schema).parse`: accepts exactly JSON arrays all of whose elements
parse. -/
def parseArrayWith {α : Type} (p : Json → Option α) : Json → Option (List α)
  | .jarr xs => xs.mapM p
  | _ => none

/-- The `.message` of a thrown ZodError. Its exact text is produced inside the
zod library, not by repository code, and is modelled as an opaque constant. -/
def zodErrorMessage : String := "ZodError"

/-! ## LlamaCloud provider operations

Each operation is parameterised by the outcome of each successive fetch
attempt (`fetchOutcome`, the external world) and the configured
`retryAttempts`, and returns its result together with the transport trace. -/

/-- LlamaCloudProvider.extractApiKey: `if (!credentials.llamaCloudApiKey)`
throws LlamaCloudConnectionError (missing or empty key is falsy). -/
def extractApiKey (credentials : ProviderCredentials) : Except JsError String :=
  match credentials.llamaCloudApiKey with
  | none =>
    .error (.llamaCloudConnectionError
      "LlamaCloud API key is required but not provided in credentials")
  | some k =>
    if k == "" then
      .error (.llamaCloudConnectionError
        "LlamaCloud API key is required but not provided in credentials")
    else .ok k

/-- The catch-and-rethrow pattern of the LlamaCloud operations:
`if (error instanceof LlamaCloudConnectionError) throw error;` else wrap the
message in a new LlamaCloudConnectionError. -/
def wrapUnlessConnection (msgHead : String) (e : JsError) : JsError :=
  if e.isConnectionError then e
  else .llamaCloudConnectionError (msgHead ++ e.message)

/-- LlamaCloudProvider.mapProjectToIndexProject. -/
def mapProjectToIndexProject (p : LlamaCloudProject) : IndexProject :=
  { id := p.id, name := p.name, description := jsOrNull p.description,
    createdAt := jsOrNull p.created_at, updatedAt := jsOrNull p.updated_at }

/-- LlamaCloudProvider.mapPipelineToIndexPipeline. -/
def mapPipelineToIndexPipeline (p : LlamaCloudPipeline) : IndexPipeline :=
  { id := p.id, name := p.name, projectId := p.project_id,
    description := jsOrNull p.description, status := jsOrNull p.status,
    createdAt := jsOrNull p.created_at, updatedAt := jsOrNull p.updated_at }

/-- LlamaCloudProvider.mapFileToIndexDocument. -/
def mapFileToIndexDocument (f : LlamaCloudFile) : IndexDocument :=
  { id := jsOrNull f.id, name := f.name, size := jsOrNullInt f.file_size,
    dtype := jsOrNull f.file_type, pipelineId := jsOrNull f.pipeline_id,
    lastModified := jsOrNull f.last_modified_at, status := jsOrNull f.status }

/-- LlamaCloudProvider.verifyCredentialsAndFetchProjects: extract the key
(outside the try block), GET `/projects` through makeRequest, translate a
non-ok status into LlamaCloudConnectionError, validate the payload with
`z.array(LlamaCloudProjectSchema)` and map it; the catch block rethrows
connection errors as-is and wraps everything else (transport exhaustion,
ZodError) as LlamaCloudConnectionError. -/
def verifyCredentialsAndFetchProjects (fetchOutcome : Nat → FetchOutcome)
    (retryAttempts : Nat) (credentials : ProviderCredentials) :
    TransportResult (List IndexProject) :=
  match extractApiKey credentials with
  | .error e => ⟨.error e, 0, []⟩
  | .ok _ =>
    match makeRequest fetchOutcome retryAttempts with
    | ⟨.error e, calls, delays⟩ =>
      ⟨.error (wrapUnlessConnection "Failed to verify API key: " e), calls, delays⟩
    | ⟨.ok resp, calls, delays⟩ =>
      if !resp.ok then
        ⟨.error (.llamaCloudConnectionError
            ("Invalid API key or unable to connect to LlamaCloud (status: " ++
              toString resp.status ++ ")")),
          calls, delays⟩
      else
        match parseArrayWith parseLlamaCloudProject resp.body.orEmptyArray with
        | none =>
          ⟨.error (.llamaCloudConnectionError
              ("Failed to verify API key: " ++ zodErrorMessage)),
            calls, delays⟩
        | some projects =>
          ⟨.ok (projects.map mapProjectToIndexProject), calls, delays⟩

/-- LlamaCloudProvider.verifyProjectAccess: fetch the project list for these
credentials, `find` the entry with the requested id, throw
LlamaCloudConnectionError when absent; the catch wraps non-connection errors. -/
def verifyProjectAccess (fetchOutcome : Nat → FetchOutcome) (retryAttempts : Nat)
    (credentials : ProviderCredentials) (projectId : String) :
    TransportResult IndexProject :=
  match verifyCredentialsAndFetchProjects fetchOutcome retryAttempts credentials with
  | ⟨.error e, calls, delays⟩ =>
    ⟨.error (wrapUnlessConnection "Failed to verify project access: " e), calls, delays⟩
  | ⟨.ok projects, calls, delays⟩ =>
    match projects.find? (fun p => p.id == projectId) with
    | some selectedProject => ⟨.ok selectedProject, calls, delays⟩
    | none =>
      ⟨.error (.llamaCloudConnectionError
          "The specified project is not accessible with this API key"),
        calls, delays⟩

/-- LlamaCloudProvider.fetchPipelinesForProject: GET `/pipelines`, translate a
non-ok status, validate with `z.array(LlamaCloudPipelineSchema)`, filter
client-side by `pipeline.project_id === projectId`, map; the catch wraps
non-connection errors. -/
def fetchPipelinesForProject (fetchOutcome : Nat → FetchOutcome)
    (retryAttempts : Nat) (credentials : ProviderCredentials)
    (projectId : String) : TransportResult (List IndexPipeline) :=
  match extractApiKey credentials with
  | .error e => ⟨.error e, 0, []⟩
  | .ok _ =>
    match makeRequest fetchOutcome retryAttempts with
    | ⟨.error e, calls, delays⟩ =>
      ⟨.error (wrapUnlessConnection "Failed to fetch pipelines: " e), calls, delays⟩
    | ⟨.ok resp, calls, delays⟩ =>
      if !resp.ok then
        ⟨.error (.llamaCloudConnectionError
            ("Failed to fetch pipelines (status: " ++ toString resp.status ++ ")")),
          calls, delays⟩
      else
        match parseArrayWith parseLlamaCloudPipeline resp.body.orEmptyArray with
        | none =>
          ⟨.error (.llamaCloudConnectionError
              ("Failed to fetch pipelines: " ++ zodErrorMessage)),
            calls, delays⟩
        | some pipelines =>
          ⟨.ok (((pipelines.filter (fun pl => pl.project_id == projectId)).map
              mapPipelineToIndexPipeline)),
            calls, delays⟩

/-- LlamaCloudProvider.fetchDocumentsForPipeline: the key extraction sits
outside the try block and can still throw; inside it, a non-ok status is
logged and returns `[]`, and the catch swallows every error (transport
exhaustion, ZodError) and returns `[]`. -/
def fetchDocumentsForPipeline (fetchOutcome : Nat → FetchOutcome)
    (retryAttempts : Nat) (credentials : ProviderCredentials)
    (pipelineId : String) : TransportResult (List IndexDocument) :=
  match extractApiKey credentials with
  | .error e => ⟨.error e, 0, []⟩
  | .ok _ =>
    match makeRequest fetchOutcome retryAttempts with
    | ⟨.error _, calls, delays⟩ => ⟨.ok [], calls, delays⟩
    | ⟨.ok resp, calls, delays⟩ =>
      if !resp.ok then ⟨.ok [], calls, delays⟩
      else
        match parseArrayWith parseLlamaCloudFile resp.body.orEmptyArray with
        | none => ⟨.ok [], calls, delays⟩
        | some files => ⟨.ok (files.map mapFileToIndexDocument), calls, delays⟩

/-! ## Environment-based configuration (src/lib/env.ts) -/

/-- The raw process environment: each variable is possibly unset. -/
structure RawEnv where
  llamaSdkProvider : Option String
  llamacloudApiKey : Option String
  llamacloudApiKeyInternal : Option String
  internalEmailDomain : Option String
  awsAccessKeyId : Option String
  awsSecretAccessKey : Option String
  awsRegion : Option String
deriving DecidableEq, Repr

/-- The `env` object of src/lib/env.ts after its `process.env.X || default`
initialisers. -/
structure Env where
  LLAMA_SDK_PROVIDER : String
  LLAMACLOUD_API_KEY : String
  LLAMACLOUD_API_KEY_INTERNAL : String
  INTERNAL_EMAIL_DOMAIN : String
  AWS_ACCESS_KEY_ID : String
  AWS_SECRET_ACCESS_KEY : String
  AWS_REGION : String
deriving DecidableEq, Repr

/-- Construction of the `env` object. -/
def envOf (raw : RawEnv) : Env :=
  { LLAMA_SDK_PROVIDER := jsOr raw.llamaSdkProvider "llamacloud",
    LLAMACLOUD_API_KEY := jsOr raw.llamacloudApiKey "",
    LLAMACLOUD_API_KEY_INTERNAL := jsOr raw.llamacloudApiKeyInternal "",
    INTERNAL_EMAIL_DOMAIN := jsOr raw.internalEmailDomain "@runllama.ai",
    AWS_ACCESS_KEY_ID := jsOr raw.awsAccessKeyId "",
    AWS_SECRET_ACCESS_KEY := jsOr raw.awsSecretAccessKey "",
    AWS_REGION := jsOr raw.awsRegion "us-east-1" }

/-- JavaScript `String.prototype.endsWith`, modelled on the character list
(semantically the suffix test). -/
def strEndsWith (s post : String) : Bool := List.isSuffixOf post.data s.data

/-- `userEmail?.endsWith(domain)` with a possibly-absent email (undefined is
falsy). -/
def emailEndsWithDomain (userEmail : Option String) (domain : String) : Bool :=
  match userEmail with
  | some email => strEndsWith email domain
  | none => false

/-- getLlamaCloudApiKey: the internal key is selected only when the caller's
email ends with the configured internal domain AND the internal key is
configured (non-empty, since the empty string is falsy). -/
def getLlamaCloudApiKey (e : Env) (userEmail : Option String) : String :=
  if emailEndsWithDomain userEmail e.INTERNAL_EMAIL_DOMAIN &&
      e.LLAMACLOUD_API_KEY_INTERNAL != "" then
    e.LLAMACLOUD_API_KEY_INTERNAL
  else
    e.LLAMACLOUD_API_KEY

/-- getLlamaSdkProvider: reads `env.LLAMA_SDK_PROVIDER` (already defaulted to
"llamacloud") and throws a plain `Error` for any other value. -/
def getLlamaSdkProvider (e : Env) : Except JsError ProviderType :=
  if e.LLAMA_SDK_PROVIDER == "llamacloud" then .ok .llamacloud
  else if e.LLAMA_SDK_PROVIDER == "bedrock" then .ok .bedrock
  else
    .error (.jsRuntimeError
      ("Invalid LLAMA_SDK_PROVIDER: \"" ++ e.LLAMA_SDK_PROVIDER ++
        "\". Must be \"llamacloud\" or \"bedrock\"."))

/-- getProviderCredentials: resolves the provider type, then fills the
credential bundle for that type from the environment. -/
def getProviderCredentials (e : Env) (userEmail : Option String) :
    Except JsError ProviderCredentials :=
  match getLlamaSdkProvider e with
  | .error err => .error err
  | .ok providerType =>
    match providerType with
    | .llamacloud =>
      .ok { ctype := .llamacloud,
            llamaCloudApiKey := some (getLlamaCloudApiKey e userEmail) }
    | .bedrock =>
      .ok { ctype := .bedrock,
            awsAccessKeyId := some e.AWS_ACCESS_KEY_ID,
            awsSecretAccessKey := some e.AWS_SECRET_ACCESS_KEY,
            awsRegion := some e.AWS_REGION }

/-! ## Provider factory (src/lib/providers/provider-factory.ts) -/

/-- The factory's cache of constructed provider instances, keyed by type. -/
structure FactoryState where
  cached : List ProviderType
deriving DecidableEq, Repr

/-- ProviderFactory.getProviderType: reads `process.env.LLAMA_SDK_PROVIDER`
directly (no default!). An unset or empty value throws the "not set" plain
`Error`; a set value other than the two legal ones throws the "Unsupported
provider type" plain `Error`. -/
def factoryGetProviderType (selector : Option String) : Except JsError ProviderType :=
  match selector with
  | none =>
    .error (.jsRuntimeError
      ("LLAMA_SDK_PROVIDER environment variable is not set. " ++
        "Please set it to \"llamacloud\" or \"bedrock\"."))
  | some s =>
    if s == "" then
      .error (.jsRuntimeError
        ("LLAMA_SDK_PROVIDER environment variable is not set. " ++
          "Please set it to \"llamacloud\" or \"bedrock\"."))
    else if s == "llamacloud" then .ok .llamacloud
    else if s == "bedrock" then .ok .bedrock
    else
      .error (.jsRuntimeError
        ("Unsupported provider type: \"" ++ s ++ "\". " ++
          "Supported types are: \"llamacloud\", \"bedrock\"."))

/-- Outcome of ProviderFactory.getProvider: the provider (identified by its
type — instances hold only fixed configuration), the updated cache, and the
number of outbound network calls performed while resolving it.
`createProvider` only constructs (`new LlamaCloudProvider()` /
`new BedrockProvider()`, whose constructors merely record configuration), so
the network-call count is 0 on every path by construction. -/
structure GetProviderOutcome where
  result : Except JsError ProviderType
  state : FactoryState
  networkCalls : Nat
deriving Repr

/-- ProviderFactory.getProvider: resolve the type, return the cached instance
when present, else construct and cache. -/
def factoryGetProvider (selector : Option String) (st : FactoryState) :
    GetProviderOutcome :=
  match factoryGetProviderType selector with
  | .error e => { result := .error e, state := st, networkCalls := 0 }
  | .ok t =>
    if st.cached.contains t then
      { result := .ok t, state := st, networkCalls := 0 }
    else
      { result := .ok t, state := { cached := t :: st.cached }, networkCalls := 0 }

/-- Substring occurrence test, used to state what an error message names. -/
def strContains (s sub : String) : Bool := (s.splitOn sub).length ≥ 2

/-! ## Bedrock provider (src/lib/providers/bedrock-provider.ts)

The AWS Bedrock Agent client is an external collaborator. Modelled from the
spec: a consistent backend store of knowledge bases; `ListKnowledgeBasesCommand`
returns its summaries (an absent `knowledgeBaseSummaries` field behaves exactly
like an empty list and is folded into it), `GetKnowledgeBaseCommand` returns
the stored knowledge base with the requested id, and
`ListDataSourcesCommand` returns the data-source summaries stored for the
requested knowledge-base id. Transient AWS failures and pagination are not
modelled. -/

/-- A knowledge base as returned by the AWS SDK (fields are all optional in
the SDK's types; `updatedAtIso` models `updatedAt?.toISOString()`). -/
structure BedrockKnowledgeBase where
  knowledgeBaseId : Option String
  name : Option String
  description : Option String
  updatedAtIso : Option String
deriving DecidableEq, Repr

/-- A data-source summary as returned by the AWS SDK. -/
structure BedrockDataSourceSummary where
  dataSourceId : Option String
  name : Option String
  description : Option String
  status : Option String
  updatedAtIso : Option String
deriving DecidableEq, Repr

/-- Modelled from the spec: the consistent AWS Bedrock backend state both
commands read. -/
structure BedrockBackend where
  knowledgeBases : List BedrockKnowledgeBase
  dataSources : String → List BedrockDataSourceSummary

/-- BedrockProvider.extractAwsCredentials: access key and secret are required
(missing or empty is falsy and throws LlamaCloudConnectionError); the region
falls back to the provider's configured region. -/
def extractAwsCredentials (configRegion : String)
    (credentials : ProviderCredentials) : Except JsError (String × String × String) :=
  match credentials.awsAccessKeyId with
  | none =>
    .error (.llamaCloudConnectionError
      "AWS Access Key ID is required but not provided in credentials")
  | some a =>
    if a == "" then
      .error (.llamaCloudConnectionError
        "AWS Access Key ID is required but not provided in credentials")
    else
      match credentials.awsSecretAccessKey with
      | none =>
        .error (.llamaCloudConnectionError
          "AWS Secret Access Key is required but not provided in credentials")
      | some sk =>
        if sk == "" then
          .error (.llamaCloudConnectionError
            "AWS Secret Access Key is required but not provided in credentials")
        else .ok (a, sk, jsOr credentials.awsRegion configRegion)

/-- The mapping of a knowledge-base summary to IndexProject inside
BedrockProvider.verifyCredentialsAndFetchProjects. -/
def mapKbToIndexProject (kb : BedrockKnowledgeBase) : IndexProject :=
  { id := jsOr kb.knowledgeBaseId "",
    name := jsOr kb.name "Unnamed Knowledge Base",
    description := jsOrNull kb.description,
    createdAt := jsOrNull kb.updatedAtIso,
    updatedAt := jsOrNull kb.updatedAtIso }

/-- BedrockProvider.verifyCredentialsAndFetchProjects: list the knowledge
bases and map them to IndexProject; client construction validates the
credentials first. -/
def bedrockVerifyCredentialsAndFetchProjects (backend : BedrockBackend)
    (configRegion : String) (credentials : ProviderCredentials) :
    Except JsError (List IndexProject) :=
  match extractAwsCredentials configRegion credentials with
  | .error e => .error e
  | .ok _ => .ok (backend.knowledgeBases.map mapKbToIndexProject)

/-- BedrockProvider.verifyProjectAccess: GetKnowledgeBase for the requested
id; an absent knowledge base throws inside the try block and the catch wraps
every error into LlamaCloudConnectionError ("Failed to verify access to
Knowledge Base ..."). -/
def bedrockVerifyProjectAccess (backend : BedrockBackend) (configRegion : String)
    (credentials : ProviderCredentials) (projectId : String) :
    Except JsError IndexProject :=
  match extractAwsCredentials configRegion credentials with
  | .error e => .error e
  | .ok _ =>
    match backend.knowledgeBases.find? (fun kb => kb.knowledgeBaseId == some projectId) with
    | none =>
      .error (.llamaCloudConnectionError
        ("Failed to verify access to Knowledge Base " ++ projectId ++
          ": Knowledge Base " ++ projectId ++ " not found or not accessible"))
    | some kb =>
      .ok { id := jsOr kb.knowledgeBaseId projectId,
            name := jsOr kb.name "Unnamed Knowledge Base",
            description := jsOrNull kb.description,
            createdAt := jsOrNull kb.updatedAtIso,
            updatedAt := jsOrNull kb.updatedAtIso }

/-- The mapping of a data-source summary to IndexPipeline inside
BedrockProvider.fetchPipelinesForProject: the requested knowledge-base id is
stamped on every pipeline as its `projectId`. -/
def mapDsToIndexPipeline (projectId : String) (ds : BedrockDataSourceSummary) :
    IndexPipeline :=
  { id := jsOr ds.dataSourceId "",
    name := jsOr ds.name "Unnamed Data Source",
    projectId := projectId,
    description := jsOrNull ds.description,
    status := jsOrNull ds.status,
    createdAt := jsOrNull ds.updatedAtIso,
    updatedAt := jsOrNull ds.updatedAtIso }

/-- BedrockProvider.fetchPipelinesForProject: ListDataSources scoped
server-side to the knowledge-base id, mapped with the requested id stamped on
each result. -/
def bedrockFetchPipelinesForProject (backend : BedrockBackend)
    (configRegion : String) (credentials : ProviderCredentials)
    (projectId : String) : Except JsError (List IndexPipeline) :=
  match extractAwsCredentials configRegion credentials with
  | .error e => .error e
  | .ok _ => .ok ((backend.dataSources projectId).map (mapDsToIndexPipeline projectId))

/-! ## Helper lemmas -/

theorem range_pow_cons (a fuel : Nat) :
    (List.range (fuel + 1)).map (fun i => 2 ^ (a + i) * 1000) =
      2 ^ a * 1000 :: (List.range fuel).map (fun i => 2 ^ (a + 1 + i) * 1000) := by
  rw [List.range_succ_eq_map, List.map_cons, List.map_map]
  refine congrArg₂ _ (by simp) ?_
  apply List.map_congr_left
  intro i _
  simp only [Function.comp_apply]
  have h : a + Nat.succ i = a + 1 + i := by omega
  rw [h]

/-- If every attempt from `a` through `a + fuel` (the remaining budget) throws,
the loop consumes all `fuel + 1` remaining attempts, sleeps the exponential
backoff after each non-final one, and reports exhaustion wrapping the last
failure. -/
theorem makeRequestGo_all_fail (fetchOutcome : Nat → FetchOutcome) (N : Nat)
    (m : Nat → String) :
    ∀ fuel a, (∀ j, a ≤ j → j ≤ a + fuel → fetchOutcome j = .err (m j)) →
      makeRequestGo fetchOutcome N a fuel =
        ⟨.error (.externalServiceError (exhaustMsg N (m (a + fuel))) "LlamaCloud"),
          fuel + 1, (List.range fuel).map (fun i => 2 ^ (a + i) * 1000)⟩ := by
  intro fuel
  induction fuel with
  | zero =>
    intro a h
    have ha := h a le_rfl (by omega)
    simp [makeRequestGo, ha]
  | succ fuel ih =>
    intro a h
    have ha := h a le_rfl (by omega)
    have hrec := ih (a + 1) (fun j hj1 hj2 => h j (by omega) (by omega))
    have hidx : a + 1 + fuel = a + (fuel + 1) := by omega
    rw [hidx] at hrec
    simp only [makeRequestGo, ha, hrec, range_pow_cons]

/-- If the attempts from `a` up to (excluding) `a + k` throw and attempt
`a + k` completes, the loop returns that response after exactly `k + 1` fetch
calls, with the backoff delays of the `k` failed attempts. -/
theorem makeRequestGo_fail_then_ok (fetchOutcome : Nat → FetchOutcome) (N : Nat)
    (r : HttpResponse) :
    ∀ k fuel a, k ≤ fuel →
      (∀ j, a ≤ j → j < a + k → ∃ msg, fetchOutcome j = .err msg) →
      fetchOutcome (a + k) = .ok r →
      makeRequestGo fetchOutcome N a fuel =
        ⟨.ok r, k + 1, (List.range k).map (fun i => 2 ^ (a + i) * 1000)⟩ := by
  intro k
  induction k with
  | zero =>
    intro fuel a _ _ hok
    rw [Nat.add_zero] at hok
    cases fuel <;> simp [makeRequestGo, hok]
  | succ k ih =>
    intro fuel a hkf hfail hok
    obtain ⟨fuel2, rfl⟩ : ∃ f, fuel = f + 1 := ⟨fuel - 1, by omega⟩
    obtain ⟨msg, hmsg⟩ := hfail a le_rfl (by omega)
    have hok2 : fetchOutcome (a + 1 + k) = .ok r := by
      rw [show a + 1 + k = a + (k + 1) from by omega]; exact hok
    have hrec := ih fuel2 (a + 1) (by omega)
      (fun j h1 h2 => hfail j (by omega) (by omega)) hok2
    simp only [makeRequestGo, hmsg, hrec, range_pow_cons]

theorem extractApiKey_ok (credentials : ProviderCredentials) (k : String)
    (hkey : credentials.llamaCloudApiKey = some k) (hk : k ≠ "") :
    extractApiKey credentials = .ok k := by
  simp [extractApiKey, hkey, hk]

theorem extractApiKey_error_isConnection (credentials : ProviderCredentials)
    (e : JsError) (h : extractApiKey credentials = .error e) :
    e.isConnectionError = true := by
  unfold extractApiKey at h
  split at h
  · cases h; rfl
  · split at h
    · cases h; rfl
    · cases h

theorem wrapUnlessConnection_isConnection (msgHead : String) (e : JsError) :
    (wrapUnlessConnection msgHead e).isConnectionError = true := by
  unfold wrapUnlessConnection
  split
  · assumption
  · rfl

/-- Every error raised by the LlamaCloud verifyCredentialsAndFetchProjects is
a LlamaCloudConnectionError. -/
theorem verifyCredentials_error_isConnection (fetchOutcome : Nat → FetchOutcome)
    (N : Nat) (credentials : ProviderCredentials) (e : JsError)
    (h : (verifyCredentialsAndFetchProjects fetchOutcome N credentials).result
        = .error e) :
    e.isConnectionError = true := by
  unfold verifyCredentialsAndFetchProjects at h
  split at h
  · next e2 heq =>
    simp only at h
    cases h
    exact extractApiKey_error_isConnection credentials e heq
  · split at h
    · next e2 heq =>
      simp only at h
      cases h
      exact wrapUnlessConnection_isConnection _ _
    · split at h
      · simp only at h
        cases h
        rfl
      · split at h
        · simp only at h
          cases h
          rfl
        · simp only at h
          cases h

/-- Every error raised by the LlamaCloud verifyProjectAccess is a
LlamaCloudConnectionError. -/
theorem verifyProjectAccess_error_isConnection (fetchOutcome : Nat → FetchOutcome)
    (N : Nat) (credentials : ProviderCredentials) (projectId : String) (e : JsError)
    (h : (verifyProjectAccess fetchOutcome N credentials projectId).result
        = .error e) :
    e.isConnectionError = true := by
  unfold verifyProjectAccess at h
  split at h
  · simp only at h
    cases h
    exact wrapUnlessConnection_isConnection _ _
  · split at h
    · simp only at h
      cases h
    · simp only at h
      cases h
      rfl

/-- The transport trace of verifyCredentialsAndFetchProjects is exactly the
trace of its single makeRequest call, whenever the credentials carry a
non-empty API key. -/
theorem verifyCredentials_trace (fetchOutcome : Nat → FetchOutcome) (N : Nat)
    (credentials : ProviderCredentials) (k : String)
    (hkey : credentials.llamaCloudApiKey = some k) (hk : k ≠ "") :
    (verifyCredentialsAndFetchProjects fetchOutcome N credentials).calls
        = (makeRequest fetchOutcome N).calls
    ∧ (verifyCredentialsAndFetchProjects fetchOutcome N credentials).delaysMs
        = (makeRequest fetchOutcome N).delaysMs := by
  unfold verifyCredentialsAndFetchProjects
  simp only [extractApiKey_ok credentials k hkey hk]
  split
  · rename_i heq
    rw [heq]
    exact ⟨rfl, rfl⟩
  · rename_i heq
    rw [heq]
    split
    · exact ⟨rfl, rfl⟩
    · split <;> exact ⟨rfl, rfl⟩

/-- The uniqueness-driven characterisation of JavaScript's
`list.find(x => key(x) === k)`: when the keys of the list are pairwise
distinct, it returns exactly the member carrying the key. -/
theorem find_by_key_eq_iff {α β : Type} [BEq β] [LawfulBEq β]
    (l : List α) (key : α → β) (k : β) (x : α)
    (hnd : (l.map key).Nodup) :
    l.find? (fun a => key a == k) = some x ↔ (x ∈ l ∧ key x = k) := by
  induction l with
  | nil => simp
  | cons a t ih =>
    rw [List.map_cons, List.nodup_cons] at hnd
    by_cases hak : key a = k
    · rw [List.find?_cons_of_pos _ (by simp [hak])]
      constructor
      · intro h
        injection h with h2
        subst h2
        exact ⟨List.mem_cons_self _ _, hak⟩
      · rintro ⟨hmem, hkx⟩
        rcases List.mem_cons.mp hmem with h | h
        · rw [h]
        · exfalso
          apply hnd.1
          have hx : key x ∈ List.map key t := List.mem_map_of_mem key h
          rw [hkx, ← hak] at hx
          exact hx
    · rw [List.find?_cons_of_neg _ (by simp [hak])]
      rw [ih hnd.2]
      constructor
      · rintro ⟨hm, hk2⟩
        exact ⟨List.mem_cons_of_mem a hm, hk2⟩
      · rintro ⟨hm, hk2⟩
        rcases List.mem_cons.mp hm with h | h
        · rw [h] at hk2
          exact absurd hk2 hak
        · exact ⟨h, hk2⟩

/-- makeRequest when every one of the `N ≥ 1` attempts throws. -/
theorem makeRequest_all_fail (fetchOutcome : Nat → FetchOutcome) (N : Nat)
    (hN : 1 ≤ N) (m : Nat → String)
    (hfail : ∀ j, 1 ≤ j → j ≤ N → fetchOutcome j = .err (m j)) :
    makeRequest fetchOutcome N =
      ⟨.error (.externalServiceError (exhaustMsg N (m N)) "LlamaCloud"), N,
        (List.range (N - 1)).map (fun i => 2 ^ (1 + i) * 1000)⟩ := by
  obtain ⟨n, rfl⟩ : ∃ n, N = n + 1 := ⟨N - 1, by omega⟩
  have h := makeRequestGo_all_fail fetchOutcome (n + 1) m n 1
    (fun j h1 h2 => hfail j h1 (by omega))
  rw [show 1 + n = n + 1 from by omega] at h
  show makeRequestGo fetchOutcome (n + 1) 1 n = _
  rw [h]
  simp

/-- makeRequest when the first attempt completes (any status). -/
theorem makeRequest_first_ok (fetchOutcome : Nat → FetchOutcome) (N : Nat)
    (hN : 1 ≤ N) (r : HttpResponse) (h1 : fetchOutcome 1 = .ok r) :
    makeRequest fetchOutcome N = ⟨.ok r, 1, []⟩ := by
  obtain ⟨n, rfl⟩ : ∃ n, N = n + 1 := ⟨N - 1, by omega⟩
  have h := makeRequestGo_fail_then_ok fetchOutcome (n + 1) r 0 n 1 (Nat.zero_le n)
    (fun j hj1 hj2 => absurd hj2 (by omega)) h1
  show makeRequestGo fetchOutcome (n + 1) 1 n = _
  rw [h]
  simp

/-- C2: with `retryAttempts = N ≥ 1` and a non-empty API key: (a) when every
fetch attempt `1..N-1` throws transiently (network error or timeout) and
attempt `N` completes, the transport returns that response with the underlying
fetch fired exactly `N` times, waiting `2 ^ attempt` seconds
(`2 ^ attempt * 1000` ms, entry `i` of the delay list being failed attempt
`i + 1`) after each failed attempt; (b) when all `N` attempts throw, the
transport raises ExternalServiceError wrapping the last failure after exactly
`N` attempts — never fewer — and the calling operation
verifyCredentialsAndFetchProjects surfaces it as a ConnectionError
(LlamaCloudConnectionError) wrapping that message, with exactly `N` underlying
calls. -/
theorem c2_retry_exponential_backoff (fetchOutcome : Nat → FetchOutcome) (N : Nat)
    (hN : 1 ≤ N) (credentials : ProviderCredentials) (k : String)
    (hkey : credentials.llamaCloudApiKey = some k) (hk : k ≠ "")
    (m : Nat → String) :
    ((∀ j, 1 ≤ j → j < N → ∃ msg, fetchOutcome j = .err msg) →
      ∀ r, fetchOutcome N = .ok r →
      makeRequest fetchOutcome N =
        ⟨.ok r, N, (List.range (N - 1)).map (fun i => 2 ^ (1 + i) * 1000)⟩)
    ∧ ((∀ j, 1 ≤ j → j ≤ N → fetchOutcome j = .err (m j)) →
      makeRequest fetchOutcome N =
        ⟨.error (.externalServiceError (exhaustMsg N (m N)) "LlamaCloud"), N,
          (List.range (N - 1)).map (fun i => 2 ^ (1 + i) * 1000)⟩
      ∧ (verifyCredentialsAndFetchProjects fetchOutcome N credentials).result
          = .error (.llamaCloudConnectionError
              ("Failed to verify API key: " ++ exhaustMsg N (m N)))
      ∧ (verifyCredentialsAndFetchProjects fetchOutcome N credentials).calls = N) := by
  obtain ⟨n, rfl⟩ : ∃ n, N = n + 1 := ⟨N - 1, by omega⟩
  constructor
  · intro hfail r hok
    have h := makeRequestGo_fail_then_ok fetchOutcome (n + 1) r n n 1 le_rfl
      (fun j hj1 hj2 => hfail j hj1 (by omega))
      (by rw [show 1 + n = n + 1 from by omega]; exact hok)
    show makeRequestGo fetchOutcome (n + 1) 1 n = _
    rw [h]
    simp
  · intro hfail
    have hmr := makeRequest_all_fail fetchOutcome (n + 1) hN m hfail
    refine ⟨hmr, ?_, ?_⟩
    · unfold verifyCredentialsAndFetchProjects
      simp only [extractApiKey_ok credentials k hkey hk]
      rw [hmr]
      simp [wrapUnlessConnection, JsError.isConnectionError, JsError.message]
    · unfold verifyCredentialsAndFetchProjects
      simp only [extractApiKey_ok credentials k hkey hk]
      rw [hmr]

/-- C5: a completed HTTP response is never retried: if the attempts before `j`
threw and attempt `j` completes — with any status code — makeRequest returns
that response having fired the underlying fetch exactly `j` times; in
particular a first-attempt response means exactly one underlying call, and a
non-success status is translated immediately by the calling operation into a
typed ConnectionError. -/
theorem c5_completed_response_not_retried (fetchOutcome : Nat → FetchOutcome)
    (N : Nat) (hN : 1 ≤ N) (credentials : ProviderCredentials) (k : String)
    (hkey : credentials.llamaCloudApiKey = some k) (hk : k ≠ "") :
    (∀ j r, 1 ≤ j → j ≤ N →
      (∀ i, 1 ≤ i → i < j → ∃ msg, fetchOutcome i = .err msg) →
      fetchOutcome j = .ok r →
      (makeRequest fetchOutcome N).result = .ok r
        ∧ (makeRequest fetchOutcome N).calls = j)
    ∧ (∀ r, fetchOutcome 1 = .ok r →
      (verifyCredentialsAndFetchProjects fetchOutcome N credentials).calls = 1
      ∧ (r.ok = false →
        (verifyCredentialsAndFetchProjects fetchOutcome N credentials).result
          = .error (.llamaCloudConnectionError
              ("Invalid API key or unable to connect to LlamaCloud (status: " ++
                toString r.status ++ ")")))) := by
  obtain ⟨n, rfl⟩ : ∃ n, N = n + 1 := ⟨N - 1, by omega⟩
  constructor
  · intro j r hj1 hjN hfail hok
    obtain ⟨j2, rfl⟩ : ∃ i, j = i + 1 := ⟨j - 1, by omega⟩
    have h := makeRequestGo_fail_then_ok fetchOutcome (n + 1) r j2 n 1 (by omega)
      (fun i hi1 hi2 => hfail i hi1 (by omega))
      (by rw [show 1 + j2 = j2 + 1 from by omega]; exact hok)
    have hmr : makeRequest fetchOutcome (n + 1) =
        ⟨.ok r, j2 + 1, (List.range j2).map (fun i => 2 ^ (1 + i) * 1000)⟩ := by
      show makeRequestGo fetchOutcome (n + 1) 1 n = _
      rw [h]
    rw [hmr]
    exact ⟨rfl, rfl⟩
  · intro r h1
    have hmr := makeRequest_first_ok fetchOutcome (n + 1) hN r h1
    constructor
    · unfold verifyCredentialsAndFetchProjects
      simp only [extractApiKey_ok credentials k hkey hk]
      rw [hmr]
      split
      · rename_i heq
        injection heq with hres hcalls hdelays
        cases hres
      · rename_i heq
        injection heq with hres hcalls hdelays
        subst hcalls
        split
        · rfl
        · split <;> rfl
    · intro hro
      unfold verifyCredentialsAndFetchProjects
      simp only [extractApiKey_ok credentials k hkey hk]
      rw [hmr]
      simp [hro]

/-- C3: every pipeline returned by fetchPipelinesForProject has its projectId
field equal to the requested projectId — the LlamaCloud variant filters the
full pipeline list client-side by `project_id`, the Bedrock variant stamps the
requested knowledge-base id on each mapped data source. -/
theorem c3_pipelines_scoped_to_project (fetchOutcome : Nat → FetchOutcome)
    (N : Nat) (credentials : ProviderCredentials) (projectId : String)
    (backend : BedrockBackend) (configRegion : String)
    (bcredentials : ProviderCredentials) :
    (∀ L p,
      (fetchPipelinesForProject fetchOutcome N credentials projectId).result = .ok L →
      p ∈ L → p.projectId = projectId)
    ∧ (∀ L p,
      bedrockFetchPipelinesForProject backend configRegion bcredentials projectId = .ok L →
      p ∈ L → p.projectId = projectId) := by
  constructor
  · intro L p h hp
    unfold fetchPipelinesForProject at h
    split at h
    · simp only at h; cases h
    · split at h
      · simp only at h; cases h
      · split at h
        · simp only at h; cases h
        · split at h
          · simp only at h; cases h
          · simp only at h
            injection h with h2
            subst h2
            simp only [List.mem_map, List.mem_filter] at hp
            obtain ⟨pl, ⟨_, hbeq⟩, rfl⟩ := hp
            simpa [mapPipelineToIndexPipeline] using hbeq
  · intro L p h hp
    unfold bedrockFetchPipelinesForProject at h
    split at h
    · cases h
    · injection h with h2
      subst h2
      simp only [List.mem_map] at hp
      obtain ⟨ds, _, rfl⟩ := hp
      rfl

/-- Whether an operation result is a raised ValidationError. -/
def resultIsValidationError {α : Type} (r : Except JsError α) : Bool :=
  match r with
  | .error e => e.isValidationError
  | .ok _ => false

/-- Whether an operation result is a raised ConfigurationError. -/
def resultIsConfigurationError {α : Type} (r : Except JsError α) : Bool :=
  match r with
  | .error e => e.isConfigurationError
  | .ok _ => false

/-- C4 counterexample data: a completed 200 response whose payload is a
project object missing its required `name` field. -/
def c4Payload : Json := Json.jarr [Json.jobj [("id", Json.jstr "proj_1")]]

/-- C4 counterexample data: every fetch attempt completes with the malformed
payload. -/
def c4FetchOutcome : Nat → FetchOutcome :=
  fun _ => .ok { ok := true, status := 200, body := c4Payload }

/-- Concrete LlamaCloud credentials with a non-empty key, used as witness
input. -/
def llamaTestCredentials : ProviderCredentials :=
  { ctype := .llamacloud, llamaCloudApiKey := some "valid-key" }

/-- C4 counterexample: on a malformed payload the operation raises
LlamaCloudConnectionError — the same ConnectionError class raised for a
non-2xx response — and not ValidationError: the provider's catch block
swallows the ZodError and rethrows it as a connection error, so the claimed
"raising ValidationError" fails on the code. -/
theorem c4_malformed_payload_not_validation_error :
    (verifyCredentialsAndFetchProjects c4FetchOutcome 3 llamaTestCredentials).result
      = .error (.llamaCloudConnectionError ("Failed to verify API key: " ++ zodErrorMessage))
    ∧ resultIsValidationError
        (verifyCredentialsAndFetchProjects c4FetchOutcome 3 llamaTestCredentials).result = false :=
  ⟨rfl, rfl⟩

/-- C4 (amended): when verifyCredentialsAndFetchProjects (or
fetchPipelinesForProject) receives a payload that does not match the expected
shape, the operation aborts by raising ConnectionError
(LlamaCloudConnectionError wrapping the ZodError message) — not
ValidationError — and no partially-validated data is returned; a non-2xx
response likewise raises ConnectionError. -/
theorem c4_malformed_payload_aborts (fetchOutcome : Nat → FetchOutcome) (N : Nat)
    (hN : 1 ≤ N) (credentials : ProviderCredentials) (k : String)
    (projectId : String)
    (hkey : credentials.llamaCloudApiKey = some k) (hk : k ≠ "")
    (resp : HttpResponse) (h1 : fetchOutcome 1 = .ok resp) :
    (resp.ok = false →
      (verifyCredentialsAndFetchProjects fetchOutcome N credentials).result
        = .error (.llamaCloudConnectionError
            ("Invalid API key or unable to connect to LlamaCloud (status: " ++
              toString resp.status ++ ")"))
      ∧ (fetchPipelinesForProject fetchOutcome N credentials projectId).result
        = .error (.llamaCloudConnectionError
            ("Failed to fetch pipelines (status: " ++ toString resp.status ++ ")")))
    ∧ (resp.ok = true →
      (parseArrayWith parseLlamaCloudProject resp.body.orEmptyArray = none →
        (verifyCredentialsAndFetchProjects fetchOutcome N credentials).result
          = .error (.llamaCloudConnectionError
              ("Failed to verify API key: " ++ zodErrorMessage)))
      ∧ (parseArrayWith parseLlamaCloudPipeline resp.body.orEmptyArray = none →
        (fetchPipelinesForProject fetchOutcome N credentials projectId).result
          = .error (.llamaCloudConnectionError
              ("Failed to fetch pipelines: " ++ zodErrorMessage)))) := by
  have hmr := makeRequest_first_ok fetchOutcome N hN resp h1
  constructor
  · intro hro
    constructor
    · unfold verifyCredentialsAndFetchProjects
      simp only [extractApiKey_ok credentials k hkey hk]
      rw [hmr]
      simp [hro]
    · unfold fetchPipelinesForProject
      simp only [extractApiKey_ok credentials k hkey hk]
      rw [hmr]
      simp [hro]
  · intro hro
    constructor
    · intro hmal
      unfold verifyCredentialsAndFetchProjects
      simp only [extractApiKey_ok credentials k hkey hk]
      rw [hmr]
      simp [hro, hmal]
    · intro hmal
      unfold fetchPipelinesForProject
      simp only [extractApiKey_ok credentials k hkey hk]
      rw [hmr]
      simp [hro, hmal]

/-- C9: for any credentials carrying a non-empty API key and any pipelineId,
the LlamaCloud fetchDocumentsForPipeline never raises: its result is always
`ok`, and on a transport failure, on a completed non-success status, and on a
malformed (schema-invalid) payload it returns the empty list — so callers
cannot distinguish "no documents" from "listing failed". -/
theorem c9_fetchDocuments_never_raises (fetchOutcome : Nat → FetchOutcome)
    (N : Nat) (credentials : ProviderCredentials) (k : String) (pipelineId : String)
    (hkey : credentials.llamaCloudApiKey = some k) (hk : k ≠ "") :
    (∃ docs, (fetchDocumentsForPipeline fetchOutcome N credentials pipelineId).result
      = .ok docs)
    ∧ (∀ e, (makeRequest fetchOutcome N).result = .error e →
      (fetchDocumentsForPipeline fetchOutcome N credentials pipelineId).result = .ok [])
    ∧ (∀ resp, (makeRequest fetchOutcome N).result = .ok resp → resp.ok = false →
      (fetchDocumentsForPipeline fetchOutcome N credentials pipelineId).result = .ok [])
    ∧ (∀ resp, (makeRequest fetchOutcome N).result = .ok resp → resp.ok = true →
      parseArrayWith parseLlamaCloudFile resp.body.orEmptyArray = none →
      (fetchDocumentsForPipeline fetchOutcome N credentials pipelineId).result = .ok []) := by
  refine ⟨?_, ?_, ?_, ?_⟩
  · unfold fetchDocumentsForPipeline
    simp only [extractApiKey_ok credentials k hkey hk]
    split
    · exact ⟨[], rfl⟩
    · split
      · exact ⟨[], rfl⟩
      · split
        · exact ⟨[], rfl⟩
        · rename_i files hparse
          exact ⟨files.map mapFileToIndexDocument, rfl⟩
  · intro e he
    unfold fetchDocumentsForPipeline
    simp only [extractApiKey_ok credentials k hkey hk]
    split
    · rfl
    · rename_i heq
      rw [heq] at he
      simp at he
  · intro resp hres hro
    unfold fetchDocumentsForPipeline
    simp only [extractApiKey_ok credentials k hkey hk]
    split
    · rfl
    · rename_i heq
      rw [heq] at hres
      simp at hres
      subst hres
      simp [hro]
  · intro resp hres hro hmal
    unfold fetchDocumentsForPipeline
    simp only [extractApiKey_ok credentials k hkey hk]
    split
    · rfl
    · rename_i heq
      rw [heq] at hres
      simp at hres
      subst hres
      simp [hro, hmal]

/-- C6: for an environment selecting the llamacloud provider, credential
resolution yields the internal API key exactly when the caller's email ends
with the configured internal email domain AND an internal key is configured
(non-empty); in every other case — no email, non-matching domain, or no
internal key — it yields the regular API key. -/
theorem c6_internal_key_selection (raw : RawEnv) (userEmail : Option String)
    (hsel : (envOf raw).LLAMA_SDK_PROVIDER = "llamacloud") :
    getProviderCredentials (envOf raw) userEmail
      = .ok { ctype := .llamacloud,
              llamaCloudApiKey := some (
                if emailEndsWithDomain userEmail (envOf raw).INTERNAL_EMAIL_DOMAIN = true
                    ∧ (envOf raw).LLAMACLOUD_API_KEY_INTERNAL ≠ ""
                then (envOf raw).LLAMACLOUD_API_KEY_INTERNAL
                else (envOf raw).LLAMACLOUD_API_KEY) } := by
  by_cases h1 : emailEndsWithDomain userEmail (envOf raw).INTERNAL_EMAIL_DOMAIN = true <;>
    by_cases h2 : (envOf raw).LLAMACLOUD_API_KEY_INTERNAL = "" <;>
      simp [getProviderCredentials, getLlamaSdkProvider, getLlamaCloudApiKey,
        hsel, h1, h2]

/-- C8 counterexample data: an environment with the regular LlamaCloud key
unset (every variable unset — the selector then defaults to llamacloud). -/
def c8Raw : RawEnv :=
  { llamaSdkProvider := none, llamacloudApiKey := none,
    llamacloudApiKeyInternal := none, internalEmailDomain := none,
    awsAccessKeyId := none, awsSecretAccessKey := none, awsRegion := none }

/-- C8 counterexample: with the regular LlamaCloud API key missing from the
configuration, credential resolution does NOT fail: it succeeds and returns a
credential bundle whose API key is the empty string — both halves of the
claim ("raises ConfigurationError", "does not return a bundle with an empty
key") fail on the code. -/
theorem c8_missing_key_returns_empty_bundle :
    getProviderCredentials (envOf c8Raw) none
      = .ok { ctype := .llamacloud, llamaCloudApiKey := some "" }
    ∧ resultIsConfigurationError (getProviderCredentials (envOf c8Raw) none) = false :=
  ⟨rfl, rfl⟩

/-- C8 (amended): with the regular key missing (resolved to the empty string
by the env defaults) and the internal key not selected, credential resolution
succeeds with an empty-string key; the missing key only surfaces when a
provider extracts it — extractApiKey then raises ConnectionError
(LlamaCloudConnectionError), not ConfigurationError. -/
theorem c8_missing_key_surfaces_at_extraction (raw : RawEnv)
    (userEmail : Option String)
    (hsel : (envOf raw).LLAMA_SDK_PROVIDER = "llamacloud")
    (hreg : (envOf raw).LLAMACLOUD_API_KEY = "")
    (hnoint : emailEndsWithDomain userEmail (envOf raw).INTERNAL_EMAIL_DOMAIN = false
        ∨ (envOf raw).LLAMACLOUD_API_KEY_INTERNAL = "") :
    getProviderCredentials (envOf raw) userEmail
      = .ok { ctype := .llamacloud, llamaCloudApiKey := some "" }
    ∧ extractApiKey { ctype := .llamacloud, llamaCloudApiKey := some "" }
      = .error (.llamaCloudConnectionError
          "LlamaCloud API key is required but not provided in credentials") := by
  constructor
  · have hkeyval : getLlamaCloudApiKey (envOf raw) userEmail = "" := by
      unfold getLlamaCloudApiKey
      rcases hnoint with h | h <;> simp [h, hreg]
    simp [getProviderCredentials, getLlamaSdkProvider, hsel, hkeyval]
  · rfl

/-- C10: in the env-based configuration path an unset provider selector
silently resolves to "llamacloud" rather than failing: `env.LLAMA_SDK_PROVIDER`
defaults to "llamacloud" when the variable is absent, getLlamaSdkProvider and
getProviderCredentials never raise for an unset selector, and
getLlamaSdkProvider raises only for an explicitly set illegal (non-empty)
value. -/
theorem c10_unset_selector_defaults (raw : RawEnv) (userEmail : Option String) :
    (raw.llamaSdkProvider = none →
      (envOf raw).LLAMA_SDK_PROVIDER = "llamacloud"
      ∧ getLlamaSdkProvider (envOf raw) = .ok .llamacloud
      ∧ getProviderCredentials (envOf raw) userEmail
          = .ok { ctype := .llamacloud,
                  llamaCloudApiKey := some (getLlamaCloudApiKey (envOf raw) userEmail) })
    ∧ (∀ e, getLlamaSdkProvider (envOf raw) = .error e →
        ∃ s, raw.llamaSdkProvider = some s
          ∧ s ≠ "" ∧ s ≠ "llamacloud" ∧ s ≠ "bedrock") := by
  constructor
  · intro hnone
    have h1 : (envOf raw).LLAMA_SDK_PROVIDER = "llamacloud" := by
      simp [envOf, jsOr, hnone]
    refine ⟨h1, ?_, ?_⟩
    · simp [getLlamaSdkProvider, h1]
    · simp [getProviderCredentials, getLlamaSdkProvider, h1]
  · intro e he
    cases hsel : raw.llamaSdkProvider with
    | none =>
      exfalso
      have h1 : (envOf raw).LLAMA_SDK_PROVIDER = "llamacloud" := by
        simp [envOf, jsOr, hsel]
      simp [getLlamaSdkProvider, h1] at he
    | some s =>
      by_cases h0 : s = ""
      · exfalso
        have h1 : (envOf raw).LLAMA_SDK_PROVIDER = "llamacloud" := by
          simp [envOf, jsOr, hsel, h0]
        simp [getLlamaSdkProvider, h1] at he
      · have h1 : (envOf raw).LLAMA_SDK_PROVIDER = s := by
          simp [envOf, jsOr, hsel, h0]
        by_cases h2 : s = "llamacloud"
        · exfalso
          simp [getLlamaSdkProvider, h1, h2] at he
        · by_cases h3 : s = "bedrock"
          · exfalso
            simp [getLlamaSdkProvider, h1, h3] at he
          · exact ⟨s, rfl, h0, h2, h3⟩

/-- C7 counterexample: getProvider with the unsupported selector "pinecone"
raises a plain untyped `Error` — the factory constructs `new Error(...)` and
imports none of the api-errors classes — not the repository's
ConfigurationError class, so the claim's "raises ConfigurationError" fails as
stated (the rest of the claim holds: the message names the value and the two
legal options, and no network call is made). -/
theorem c7_unsupported_selector_plain_error :
    (factoryGetProvider (some "pinecone") ⟨[]⟩).result
      = .error (.jsRuntimeError
          ("Unsupported provider type: \"pinecone\". " ++
            "Supported types are: \"llamacloud\", \"bedrock\"."))
    ∧ resultIsConfigurationError (factoryGetProvider (some "pinecone") ⟨[]⟩).result = false
    ∧ (factoryGetProvider (some "pinecone") ⟨[]⟩).networkCalls = 0 :=
  ⟨rfl, rfl, rfl⟩

/-- C7 (amended): getProvider with an unsupported or unset selector raises a
plain untyped `Error` (not the repository's ConfigurationError class) before
any provider is constructed: for an explicitly set unsupported value the
message names the offending value and enumerates the two legal values, for an
unset or empty selector it names the variable and enumerates the two legal
values; no network call is made on any path, and a legal selector returns the
provider, likewise without any network call. -/
theorem c7_selector_validation (selector : Option String) (st : FactoryState) :
    (factoryGetProvider selector st).networkCalls = 0
    ∧ (selector = none →
        (factoryGetProvider selector st).result
          = .error (.jsRuntimeError
              ("LLAMA_SDK_PROVIDER environment variable is not set. " ++
                "Please set it to \"llamacloud\" or \"bedrock\".")))
    ∧ (∀ s, selector = some s → s ≠ "" → s ≠ "llamacloud" → s ≠ "bedrock" →
        (factoryGetProvider selector st).result
          = .error (.jsRuntimeError
              ("Unsupported provider type: \"" ++ s ++ "\". " ++
                "Supported types are: \"llamacloud\", \"bedrock\"."))
        ∧ resultIsConfigurationError (factoryGetProvider selector st).result = false)
    ∧ (selector = some "llamacloud" →
        (factoryGetProvider selector st).result = .ok .llamacloud)
    ∧ (selector = some "bedrock" →
        (factoryGetProvider selector st).result = .ok .bedrock) := by
  refine ⟨?_, ?_, ?_, ?_, ?_⟩
  · unfold factoryGetProvider
    split
    · rfl
    · split <;> rfl
  · intro hnone
    subst hnone
    rfl
  · intro s hs h0 h2 h3
    subst hs
    have hres : factoryGetProviderType (some s)
        = .error (.jsRuntimeError
            ("Unsupported provider type: \"" ++ s ++ "\". " ++
              "Supported types are: \"llamacloud\", \"bedrock\".")) := by
      simp [factoryGetProviderType, h0, h2, h3]
    constructor
    · simp [factoryGetProvider, hres]
    · simp [factoryGetProvider, hres, resultIsConfigurationError,
        JsError.isConfigurationError]
  · intro hs
    subst hs
    have ht : factoryGetProviderType (some "llamacloud") = .ok .llamacloud := by rfl
    unfold factoryGetProvider
    rw [ht]
    split
    · rename_i heq
      cases heq
    · rename_i heq
      injection heq with h4
      subst h4
      split <;> rfl
  · intro hs
    subst hs
    have ht : factoryGetProviderType (some "bedrock") = .ok .bedrock := by rfl
    unfold factoryGetProvider
    rw [ht]
    split
    · rename_i heq
      cases heq
    · rename_i heq
      injection heq with h4
      subst h4
      split <;> rfl

theorem jsOr_some_self (s : String) : jsOr (some s) s = s := by
  simp only [jsOr]
  split <;> rfl

theorem jsOr_some_empty (s : String) : jsOr (some s) "" = s := by
  simp only [jsOr]
  split
  · rename_i h
    simp at h
    exact h.symm
  · rfl

theorem extractAwsCredentials_error_isConnection (configRegion : String)
    (credentials : ProviderCredentials) (e : JsError)
    (h : extractAwsCredentials configRegion credentials = .error e) :
    e.isConnectionError = true := by
  unfold extractAwsCredentials at h
  split at h
  · cases h; rfl
  · split at h
    · cases h; rfl
    · split at h
      · cases h; rfl
      · split at h
        · cases h; rfl
        · cases h

/-- Every error raised by the Bedrock verifyProjectAccess is a
LlamaCloudConnectionError. -/
theorem bedrockVerifyProjectAccess_error_isConnection (backend : BedrockBackend)
    (configRegion : String) (bcredentials : ProviderCredentials)
    (projectId : String) (e : JsError)
    (h : bedrockVerifyProjectAccess backend configRegion bcredentials projectId
      = .error e) :
    e.isConnectionError = true := by
  unfold bedrockVerifyProjectAccess at h
  split at h
  · rename_i heq
    cases h
    exact extractAwsCredentials_error_isConnection configRegion bcredentials _ heq
  · split at h
    · cases h; rfl
    · cases h

/-- C1: verifyProjectAccess succeeds with project P exactly when P — carrying
id equal to the requested projectId — is a member of the list that
verifyCredentialsAndFetchProjects yields for the same credentials (stated for
result lists whose ids are pairwise distinct, the id being the lookup key),
and every failure it raises is a ConnectionError. The LlamaCloud variant
literally re-runs verifyCredentialsAndFetchProjects and searches its result;
the Bedrock variant consults the same consistent modelled backend store that
the listing reads. -/
theorem c1_verifyProjectAccess_iff_member (fetchOutcome : Nat → FetchOutcome)
    (N : Nat) (credentials : ProviderCredentials) (projectId : String)
    (backend : BedrockBackend) (configRegion : String)
    (bcredentials : ProviderCredentials) :
    (∀ L, (verifyCredentialsAndFetchProjects fetchOutcome N credentials).result = .ok L →
      (L.map IndexProject.id).Nodup →
      ∀ P, ((verifyProjectAccess fetchOutcome N credentials projectId).result = .ok P
        ↔ (P ∈ L ∧ P.id = projectId)))
    ∧ (∀ e, (verifyProjectAccess fetchOutcome N credentials projectId).result = .error e →
        e.isConnectionError = true)
    ∧ ((∀ kb ∈ backend.knowledgeBases, ∃ s, kb.knowledgeBaseId = some s) →
      (backend.knowledgeBases.map BedrockKnowledgeBase.knowledgeBaseId).Nodup →
      ∀ Lb, bedrockVerifyCredentialsAndFetchProjects backend configRegion bcredentials
          = .ok Lb →
      ∀ P, (bedrockVerifyProjectAccess backend configRegion bcredentials projectId
          = .ok P
        ↔ (P ∈ Lb ∧ P.id = projectId)))
    ∧ (∀ e, bedrockVerifyProjectAccess backend configRegion bcredentials projectId
          = .error e →
        e.isConnectionError = true) := by
  refine ⟨?_, ?_, ?_, ?_⟩
  · intro L hL hnd P
    unfold verifyProjectAccess
    split
    · rename_i heq
      rw [heq] at hL
      simp at hL
    · rename_i projects calls delays heq
      rw [heq] at hL
      simp only [TransportResult.result] at hL
      injection hL with hL2
      subst hL2
      rw [← find_by_key_eq_iff _ IndexProject.id projectId P hnd]
      cases hf : projects.find? (fun p => p.id == projectId) with
      | some q => simp [hf]
      | none => simp [hf]
  · exact fun e he =>
      verifyProjectAccess_error_isConnection fetchOutcome N credentials projectId e he
  · intro hids hnd Lb hLb P
    unfold bedrockVerifyCredentialsAndFetchProjects at hLb
    split at hLb
    · cases hLb
    · rename_i heq
      injection hLb with hLb2
      subst hLb2
      unfold bedrockVerifyProjectAccess
      rw [heq]
      cases hf : backend.knowledgeBases.find?
          (fun kb => kb.knowledgeBaseId == some projectId) with
      | none =>
        simp only [hf]
        constructor
        · intro hok
          cases hok
        · rintro ⟨hmem, hid⟩
          exfalso
          simp only [List.mem_map] at hmem
          obtain ⟨kb, hkbmem, rfl⟩ := hmem
          obtain ⟨s, hs⟩ := hids kb hkbmem
          have hid2 : (mapKbToIndexProject kb).id = s := by
            simp [mapKbToIndexProject, hs, jsOr_some_empty]
          rw [hid2] at hid
          have hfind : backend.knowledgeBases.find?
              (fun kb => kb.knowledgeBaseId == some projectId) = some kb :=
            (find_by_key_eq_iff _ _ _ _ hnd).mpr ⟨hkbmem, by rw [hs, hid]⟩
          rw [hfind] at hf
          cases hf
      | some kb =>
        simp only [hf]
        have hkbid : kb.knowledgeBaseId = some projectId := by
          have hb := List.find?_some hf
          simpa using hb
        have hkbmem : kb ∈ backend.knowledgeBases := List.mem_of_find?_eq_some hf
        have hrec :
            ({ id := jsOr kb.knowledgeBaseId projectId,
               name := jsOr kb.name "Unnamed Knowledge Base",
               description := jsOrNull kb.description,
               createdAt := jsOrNull kb.updatedAtIso,
               updatedAt := jsOrNull kb.updatedAtIso } : IndexProject)
              = mapKbToIndexProject kb := by
          unfold mapKbToIndexProject
          rw [hkbid, jsOr_some_self, jsOr_some_empty]
        rw [hrec]
        constructor
        · intro hok
          injection hok with h2
          subst h2
          refine ⟨List.mem_map_of_mem _ hkbmem, ?_⟩
          simp [mapKbToIndexProject, hkbid, jsOr_some_empty]
        · rintro ⟨hmem, hid⟩
          simp only [List.mem_map] at hmem
          obtain ⟨kb2, hkb2mem, rfl⟩ := hmem
          obtain ⟨s2, hs2⟩ := hids kb2 hkb2mem
          have hid2 : (mapKbToIndexProject kb2).id = s2 := by
            simp [mapKbToIndexProject, hs2, jsOr_some_empty]
          rw [hid2] at hid
          have hfind2 : backend.knowledgeBases.find?
              (fun kb => kb.knowledgeBaseId == some projectId) = some kb2 :=
            (find_by_key_eq_iff _ _ _ _ hnd).mpr ⟨hkb2mem, by rw [hs2, hid]⟩
          rw [hf] at hfind2
          injection hfind2 with h3
          subst h3
          rfl
  · exact fun e he =>
      bedrockVerifyProjectAccess_error_isConnection backend configRegion
        bcredentials projectId e he

/-! ## Witness data: concrete inputs the hypothesis-bearing theorems are
evaluated at. -/

/-- Concrete Bedrock credentials with access key and secret. -/
def bedrockTestCredentials : ProviderCredentials :=
  { ctype := .bedrock, awsAccessKeyId := some "AKIAEXAMPLE",
    awsSecretAccessKey := some "secretExample", awsRegion := some "us-east-1" }

/-- Two well-formed projects as a `/projects` payload. -/
def c1Payload : Json :=
  Json.jarr
    [Json.jobj [("id", Json.jstr "proj-1"), ("name", Json.jstr "One")],
     Json.jobj [("id", Json.jstr "proj-2"), ("name", Json.jstr "Two")]]

/-- Every fetch completes with the two-project payload. -/
def c1FetchOutcome : Nat → FetchOutcome :=
  fun _ => .ok { ok := true, status := 200, body := c1Payload }

/-- The mapped form of the first project of `c1Payload`. -/
def c1ProjOne : IndexProject :=
  { id := "proj-1", name := "One", description := none,
    createdAt := none, updatedAt := none }

/-- The mapped form of the second project of `c1Payload`. -/
def c1ProjTwo : IndexProject :=
  { id := "proj-2", name := "Two", description := none,
    createdAt := none, updatedAt := none }

/-- A Bedrock backend holding one knowledge base. -/
def c1Backend : BedrockBackend :=
  { knowledgeBases :=
      [{ knowledgeBaseId := some "kb-1", name := some "KB One",
         description := none, updatedAtIso := none }],
    dataSources := fun _ => [] }

/-- The mapped form of the knowledge base of `c1Backend`. -/
def c1KbProj : IndexProject :=
  { id := "kb-1", name := "KB One", description := none,
    createdAt := none, updatedAt := none }

theorem c1_verifyProjectAccess_iff_member_witness :
    (verifyProjectAccess c1FetchOutcome 3 llamaTestCredentials "proj-2").result
      = .ok c1ProjTwo
    ∧ bedrockVerifyProjectAccess c1Backend "us-east-1" bedrockTestCredentials "kb-1"
      = .ok c1KbProj := by
  have h := c1_verifyProjectAccess_iff_member c1FetchOutcome 3 llamaTestCredentials
    "proj-2" c1Backend "us-east-1" bedrockTestCredentials
  have hb := c1_verifyProjectAccess_iff_member c1FetchOutcome 3 llamaTestCredentials
    "kb-1" c1Backend "us-east-1" bedrockTestCredentials
  constructor
  · exact (h.1 [c1ProjOne, c1ProjTwo] rfl (by decide) c1ProjTwo).mpr ⟨by decide, rfl⟩
  · refine ((hb.2.2.1 ?_ (by decide) [c1KbProj] rfl) c1KbProj).mpr ⟨by decide, rfl⟩
    intro kb hkb
    rw [show c1Backend.knowledgeBases
        = [{ knowledgeBaseId := some "kb-1", name := some "KB One",
             description := none, updatedAtIso := none }] from rfl,
      List.mem_singleton] at hkb
    subst hkb
    exact ⟨"kb-1", rfl⟩

/-- Fetch throws on attempts 1 and 2, completes on attempt 3. -/
def c2FetchOutcome : Nat → FetchOutcome :=
  fun j =>
    if j < 3 then .err ("network error " ++ toString j)
    else .ok { ok := true, status := 200, body := Json.jarr [] }

/-- Every fetch attempt throws. -/
def c2FetchOutcomeAllFail : Nat → FetchOutcome :=
  fun j => .err ("network error " ++ toString j)

theorem c2_retry_exponential_backoff_witness :
    makeRequest c2FetchOutcome 3
      = ⟨.ok { ok := true, status := 200, body := Json.jarr [] }, 3, [2000, 4000]⟩
    ∧ (verifyCredentialsAndFetchProjects c2FetchOutcomeAllFail 3 llamaTestCredentials).result
      = .error (.llamaCloudConnectionError
          ("Failed to verify API key: " ++ exhaustMsg 3 "network error 3"))
    ∧ (verifyCredentialsAndFetchProjects c2FetchOutcomeAllFail 3 llamaTestCredentials).calls
      = 3 := by
  have ha := (c2_retry_exponential_backoff c2FetchOutcome 3 (by omega)
    llamaTestCredentials "valid-key" rfl (by decide) (fun _ => "")).1
    (fun j h1 h2 => ⟨"network error " ++ toString j, by simp [c2FetchOutcome, h2]⟩)
    { ok := true, status := 200, body := Json.jarr [] } rfl
  have hb := (c2_retry_exponential_backoff c2FetchOutcomeAllFail 3 (by omega)
    llamaTestCredentials "valid-key" rfl (by decide)
    (fun j => "network error " ++ toString j)).2 (fun j h1 h2 => rfl)
  exact ⟨ha, hb.2.1, hb.2.2⟩

/-- Every fetch completes immediately with a 401 response. -/
def c5FetchOutcome : Nat → FetchOutcome :=
  fun _ => .ok { ok := false, status := 401, body := Json.null }

theorem c5_completed_response_not_retried_witness :
    (verifyCredentialsAndFetchProjects c5FetchOutcome 3 llamaTestCredentials).calls = 1
    ∧ (verifyCredentialsAndFetchProjects c5FetchOutcome 3 llamaTestCredentials).result
      = .error (.llamaCloudConnectionError
          "Invalid API key or unable to connect to LlamaCloud (status: 401)") := by
  have h := (c5_completed_response_not_retried c5FetchOutcome 3 (by omega)
    llamaTestCredentials "valid-key" rfl (by decide)).2
    { ok := false, status := 401, body := Json.null } rfl
  exact ⟨h.1, h.2 rfl⟩

/-- A `/pipelines` payload with one pipeline in the requested project and one
in another. -/
def c3Payload : Json :=
  Json.jarr
    [Json.jobj [("id", Json.jstr "pipe-1"), ("name", Json.jstr "P1"),
      ("project_id", Json.jstr "proj-1")],
     Json.jobj [("id", Json.jstr "pipe-2"), ("name", Json.jstr "P2"),
      ("project_id", Json.jstr "proj-2")]]

/-- Every fetch completes with the two-pipeline payload. -/
def c3FetchOutcome : Nat → FetchOutcome :=
  fun _ => .ok { ok := true, status := 200, body := c3Payload }

/-- The mapped form of the matching pipeline of `c3Payload`. -/
def c3PipeMapped : IndexPipeline :=
  { id := "pipe-1", name := "P1", projectId := "proj-1", description := none,
    status := none, createdAt := none, updatedAt := none }

/-- A Bedrock backend exposing one data source for every knowledge base. -/
def c3Backend : BedrockBackend :=
  { knowledgeBases := [],
    dataSources := fun _ =>
      [{ dataSourceId := some "ds-1", name := some "DS", description := none,
         status := none, updatedAtIso := none }] }

/-- The mapped form of the data source of `c3Backend` for the requested
knowledge base "proj-1". -/
def c3BedrockPipe : IndexPipeline :=
  { id := "ds-1", name := "DS", projectId := "proj-1", description := none,
    status := none, createdAt := none, updatedAt := none }

theorem c3_pipelines_scoped_to_project_witness :
    c3PipeMapped.projectId = "proj-1" ∧ c3BedrockPipe.projectId = "proj-1" := by
  have h := c3_pipelines_scoped_to_project c3FetchOutcome 3 llamaTestCredentials
    "proj-1" c3Backend "us-east-1" bedrockTestCredentials
  constructor
  · exact h.1 [c3PipeMapped] c3PipeMapped rfl (by decide)
  · exact h.2 [c3BedrockPipe] c3BedrockPipe rfl (by decide)

theorem c4_malformed_payload_aborts_witness :
    (verifyCredentialsAndFetchProjects c4FetchOutcome 3 llamaTestCredentials).result
      = .error (.llamaCloudConnectionError
          ("Failed to verify API key: " ++ zodErrorMessage)) :=
  ((c4_malformed_payload_aborts c4FetchOutcome 3 (by omega) llamaTestCredentials
    "valid-key" "proj-1" rfl (by decide)
    { ok := true, status := 200, body := c4Payload } rfl).2 rfl).1 rfl

/-- Every fetch attempt throws (transport-level failure). -/
def c9FetchOutcome : Nat → FetchOutcome := fun _ => .err "network down"

theorem c9_fetchDocuments_never_raises_witness :
    (fetchDocumentsForPipeline c9FetchOutcome 3 llamaTestCredentials "pipe-1").result
      = .ok [] := by
  have h := c9_fetchDocuments_never_raises c9FetchOutcome 3 llamaTestCredentials
    "valid-key" "pipe-1" rfl (by decide)
  exact h.2.1 (.externalServiceError (exhaustMsg 3 "network down") "LlamaCloud") rfl

/-- An environment selecting llamacloud, with both keys and an internal
domain configured. -/
def c6Raw : RawEnv :=
  { llamaSdkProvider := some "llamacloud", llamacloudApiKey := some "regular-key",
    llamacloudApiKeyInternal := some "internal-key",
    internalEmailDomain := some "@corp.test",
    awsAccessKeyId := none, awsSecretAccessKey := none, awsRegion := none }

theorem c6_internal_key_selection_witness :
    getProviderCredentials (envOf c6Raw) (some "dev@corp.test")
      = .ok { ctype := .llamacloud, llamaCloudApiKey := some "internal-key" }
    ∧ getProviderCredentials (envOf c6Raw) (some "dev@other.test")
      = .ok { ctype := .llamacloud, llamaCloudApiKey := some "regular-key" } := by
  have h1 := c6_internal_key_selection c6Raw (some "dev@corp.test") rfl
  have h2 := c6_internal_key_selection c6Raw (some "dev@other.test") rfl
  constructor
  · rw [h1]
    rfl
  · rw [h2]
    rfl

theorem c8_missing_key_surfaces_at_extraction_witness :
    getProviderCredentials (envOf c8Raw) none
      = .ok { ctype := .llamacloud, llamaCloudApiKey := some "" }
    ∧ extractApiKey { ctype := .llamacloud, llamaCloudApiKey := some "" }
      = .error (.llamaCloudConnectionError
          "LlamaCloud API key is required but not provided in credentials") :=
  c8_missing_key_surfaces_at_extraction c8Raw none rfl rfl (Or.inl rfl)

/-- An environment with every variable unset. -/
def c10Raw : RawEnv :=
  { llamaSdkProvider := none, llamacloudApiKey := none,
    llamacloudApiKeyInternal := none, internalEmailDomain := none,
    awsAccessKeyId := none, awsSecretAccessKey := none, awsRegion := none }

theorem c10_unset_selector_defaults_witness :
    (envOf c10Raw).LLAMA_SDK_PROVIDER = "llamacloud"
    ∧ getLlamaSdkProvider (envOf c10Raw) = .ok .llamacloud
    ∧ getProviderCredentials (envOf c10Raw) none
      = .ok { ctype := .llamacloud,
              llamaCloudApiKey := some (getLlamaCloudApiKey (envOf c10Raw) none) } :=
  (c10_unset_selector_defaults c10Raw none).1 rfl

theorem c7_selector_validation_witness :
    (factoryGetProvider (some "weaviate") ⟨[]⟩).result
      = .error (.jsRuntimeError
          ("Unsupported provider type: \"weaviate\". " ++
            "Supported types are: \"llamacloud\", \"bedrock\"."))
    ∧ (factoryGetProvider (some "weaviate") ⟨[]⟩).networkCalls = 0
    ∧ (factoryGetProvider (some "llamacloud") ⟨[]⟩).result = .ok .llamacloud
    ∧ (factoryGetProvider none ⟨[]⟩).result
      = .error (.jsRuntimeError
          ("LLAMA_SDK_PROVIDER environment variable is not set. " ++
            "Please set it to \"llamacloud\" or \"bedrock\".")) := by
  have h := c7_selector_validation (some "weaviate") ⟨[]⟩
  have h2 := c7_selector_validation (some "llamacloud") ⟨[]⟩
  have h3 := c7_selector_validation none ⟨[]⟩
  exact ⟨(h.2.2.1 "weaviate" rfl (by decide) (by decide) (by decide)).1, h.1,
    h2.2.2.2.1 rfl, h3.2.1 rfl⟩

end AutoRfp
